import Mathlib

/-!
Verification of the stock-movement core of the `almoxarifado` inventory
application (`src/almoxarifado/models.py` and
`src/almoxarifado/views/movimentacao_views.py`).

The embedding models:
* `Produto` — the product row (`models.py`, class `Produto`), keeping the
  fields relevant to stock logic; audit/address/price fields are omitted.
  Quantities are Python integers, modelled as `Int` (the `PositiveIntegerField`
  column constraint appears as a hypothesis where a claim assumes it).
* `Movimentacao` — the movement row (`models.py`, class `Movimentacao`).
* `Movimentacao.salvar_e_atualizar_estoque` — the movement-application method
  (`models.py` lines 119-144), returning either the raised exception or the
  updated in-memory product together with the ordered list of persistence
  calls it issues (`produto.save()` then `self.save()`).
* `DB` and `DB.applyEvent` — the relational store and the effect of each
  persistence call (UPDATE by primary key for `save` on an existing product,
  INSERT with `auto_now_add` timestamp for the new movement).
* a two-request interleaving model of the `registrar_saida` view
  (`movimentacao_views.py` lines 148-226) for the concurrency claim.
-/

/-- Exceptions that can surface from the movement-application method.
`valueError` is Python's builtin `ValueError`, the exception class the source
actually raises (`models.py` line 137: `raise ValueError("Quantidade
insuficiente em estoque")`). `insufficientStockError` is modelled from the
spec: section 7 posits a dedicated domain error type `InsufficientStockError`;
no such class exists anywhere in the source, and we prove the embedded code
never produces this constructor. -/
inductive PyExc where
  | valueError (msg : String)
  | insufficientStockError
  deriving DecidableEq, Repr

/-- Product row (`models.py` class `Produto`). `pk` is Django's implicit
auto primary key; `quantidade_minima` and `quantidade_atual` are the
stock fields; `ativo` the active flag. -/
structure Produto where
  pk : Nat
  codigo : String
  nome : String
  quantidade_minima : Int
  quantidade_atual : Int
  ativo : Bool
  deriving DecidableEq, Repr

/-- Low-stock predicate (`models.py` lines 93-95):
`return self.quantidade_atual <= self.quantidade_minima`. -/
def Produto.esta_com_estoque_baixo (p : Produto) : Bool :=
  p.quantidade_atual ≤ p.quantidade_minima

/-- Movement row (`models.py` class `Movimentacao`). `tipo` is a plain
string field (the `TIPO_CHOICES` list constrains forms, not the method's
branch logic); `funcionario` is a nullable foreign key;
`data_movimentacao` is the `auto_now_add` timestamp set when the row is
inserted. -/
structure Movimentacao where
  produto_pk : Nat
  tipo : String
  quantidade : Int
  motivo : String
  funcionario : Option Nat
  data_movimentacao : Nat
  observacoes : String
  deriving DecidableEq, Repr

/-- The valid movement kinds (`models.py` `TIPO_CHOICES`). -/
def TIPO_CHOICES : List (String × String) :=
  [("entrada", "Entrada"), ("saida", "Saída"), ("ajuste", "Ajuste")]

/-- One persistence call issued by `salvar_e_atualizar_estoque`:
`produto.save()` (an UPDATE of the product row) or `self.save()`
(an INSERT of the new movement row). The order of the events in the
returned list is the order of the calls in the source. -/
inductive CommitEvent where
  | produtoSaved (p : Produto)
  | movimentacaoSaved (m : Movimentacao)
  deriving DecidableEq, Repr

/-- The movement-application method (`models.py` lines 119-144).

Mirrors the source body: branch on `self.tipo`; `entrada` adds the
quantity, `saida` subtracts when `quantidade_atual >= quantidade` and
otherwise raises `ValueError("Quantidade insuficiente em estoque")`
before any save, `ajuste` overwrites the quantity, and an unrecognized
`tipo` falls through the `if`/`elif` chain leaving the quantity
untouched. On the non-raising paths the method then calls
`self.produto.save()` followed by `self.save()`; `now` is the
`auto_now_add` timestamp the insert stamps on the movement row. -/
def Movimentacao.salvar_e_atualizar_estoque (m : Movimentacao) (p : Produto)
    (now : Nat) : Except PyExc (Produto × List CommitEvent) :=
  (if m.tipo = "entrada" then
    Except.ok { p with quantidade_atual := p.quantidade_atual + m.quantidade }
  else if m.tipo = "saida" then
    if p.quantidade_atual ≥ m.quantidade then
      Except.ok { p with quantidade_atual := p.quantidade_atual - m.quantidade }
    else
      Except.error (PyExc.valueError "Quantidade insuficiente em estoque")
  else if m.tipo = "ajuste" then
    Except.ok { p with quantidade_atual := m.quantidade }
  else
    Except.ok p).map
    (fun p2 =>
      (p2, [CommitEvent.produtoSaved p2,
            CommitEvent.movimentacaoSaved { m with data_movimentacao := now }]))

/-- The relational store: the product table and the movement table. -/
structure DB where
  produtos : List Produto
  movimentacoes : List Movimentacao
  deriving DecidableEq, Repr

/-- Effect of one committed persistence call on the store.
`produto.save()` on an existing row is an UPDATE keyed by primary key;
`movimentacao.save()` on a fresh object is an INSERT (append). -/
def DB.applyEvent (db : DB) : CommitEvent → DB
  | CommitEvent.produtoSaved p =>
      { db with produtos := db.produtos.map (fun q => if q.pk = p.pk then p else q) }
  | CommitEvent.movimentacaoSaved m =>
      { db with movimentacoes := db.movimentacoes ++ [m] }

/-- Fold a sequence of persistence calls into the store, in order. -/
def DB.applyEvents (db : DB) (evs : List CommitEvent) : DB :=
  evs.foldl DB.applyEvent db

/-- `Produto.objects.get(pk=...)`: fetch the product row by primary key. -/
def getProduto (db : DB) (pk : Nat) : Option Produto :=
  db.produtos.find? (fun p => p.pk = pk)

/-- Run the movement-application method against the store: on a raise the
exception propagates and no persistence call was issued (the raise in the
source precedes both saves), so the store is returned unchanged; on success
the issued saves are applied in order. -/
def runMovimentacao (db : DB) (m : Movimentacao) (p : Produto) (now : Nat) :
    Except PyExc Unit × DB :=
  match m.salvar_e_atualizar_estoque p now with
  | Except.error e => (Except.error e, db)
  | Except.ok (_, evs) => (Except.ok (), db.applyEvents evs)

/-- In-memory product state after one call: on a raise the product object
is unchanged (the raise precedes the mutation's persistence and, on the
`saida` branch, the mutation itself). Used to express quantity evolution
over a sequence of movements. -/
def passoProduto (p : Produto) (m : Movimentacao) (now : Nat) : Produto :=
  match m.salvar_e_atualizar_estoque p now with
  | Except.error _ => p
  | Except.ok (p2, _) => p2

/-- Product state after a whole sequence of movement applications. -/
def aplicarSequencia (p : Produto) (ms : List (Movimentacao × Nat)) : Produto :=
  ms.foldl (fun q mn => passoProduto q mn.fst mn.snd) p

/-- Concrete product fixture, matching the worked example of spec section 8
(quantity 45, minimum 10). -/
def produtoEx : Produto :=
  { pk := 1, codigo := "P1", nome := "Parafuso", quantidade_minima := 10,
    quantidade_atual := 45, ativo := true }

/-- Concrete withdrawal movement fixture with quantity `q` against `produtoEx`. -/
def movSaida (q : Int) : Movimentacao :=
  { produto_pk := 1, tipo := "saida", quantidade := q, motivo := "uso",
    funcionario := none, data_movimentacao := 0, observacoes := "" }

/-- Concrete receipt movement fixture with quantity `q` against `produtoEx`. -/
def movEntrada (q : Int) : Movimentacao :=
  { produto_pk := 1, tipo := "entrada", quantidade := q, motivo := "compra",
    funcionario := none, data_movimentacao := 0, observacoes := "" }

/-- Concrete adjustment movement fixture with target value `q` against `produtoEx`. -/
def movAjuste (q : Int) : Movimentacao :=
  { produto_pk := 1, tipo := "ajuste", quantidade := q, motivo := "correcao",
    funcionario := none, data_movimentacao := 0, observacoes := "" }

/-- Concrete store fixture: one product row, no movement rows yet. -/
def dbEx : DB := { produtos := [produtoEx], movimentacoes := [] }

/-- Branch characterization: an `entrada` movement adds the quantity and
issues the two saves in source order. -/
theorem salvar_entrada_eq (m : Movimentacao) (p : Produto) (now : Nat)
    (h : m.tipo = "entrada") :
    m.salvar_e_atualizar_estoque p now =
      Except.ok ({ p with quantidade_atual := p.quantidade_atual + m.quantidade },
        [CommitEvent.produtoSaved
            { p with quantidade_atual := p.quantidade_atual + m.quantidade },
          CommitEvent.movimentacaoSaved { m with data_movimentacao := now }]) := by
  simp [Movimentacao.salvar_e_atualizar_estoque, h, Except.map]

/-- Branch characterization: a sufficiently-stocked `saida` movement
subtracts the quantity and issues the two saves in source order. -/
theorem salvar_saida_ok_eq (m : Movimentacao) (p : Produto) (now : Nat)
    (h : m.tipo = "saida") (hq : m.quantidade ≤ p.quantidade_atual) :
    m.salvar_e_atualizar_estoque p now =
      Except.ok ({ p with quantidade_atual := p.quantidade_atual - m.quantidade },
        [CommitEvent.produtoSaved
            { p with quantidade_atual := p.quantidade_atual - m.quantidade },
          CommitEvent.movimentacaoSaved { m with data_movimentacao := now }]) := by
  simp [Movimentacao.salvar_e_atualizar_estoque, h, hq, Except.map]

/-- Branch characterization: an insufficiently-stocked `saida` movement
raises `ValueError` before issuing any save. -/
theorem salvar_saida_erro_eq (m : Movimentacao) (p : Produto) (now : Nat)
    (h : m.tipo = "saida") (hq : p.quantidade_atual < m.quantidade) :
    m.salvar_e_atualizar_estoque p now =
      Except.error (PyExc.valueError "Quantidade insuficiente em estoque") := by
  simp [Movimentacao.salvar_e_atualizar_estoque, h, not_le.mpr hq, Except.map]

/-- Branch characterization: an `ajuste` movement overwrites the quantity and
issues the two saves in source order. -/
theorem salvar_ajuste_eq (m : Movimentacao) (p : Produto) (now : Nat)
    (h : m.tipo = "ajuste") :
    m.salvar_e_atualizar_estoque p now =
      Except.ok ({ p with quantidade_atual := m.quantidade },
        [CommitEvent.produtoSaved { p with quantidade_atual := m.quantidade },
          CommitEvent.movimentacaoSaved { m with data_movimentacao := now }]) := by
  simp [Movimentacao.salvar_e_atualizar_estoque, h, Except.map]

/-- Branch characterization: a movement whose `tipo` matches no branch leaves
the product untouched and still issues the two saves. -/
theorem salvar_outro_eq (m : Movimentacao) (p : Produto) (now : Nat)
    (h1 : m.tipo ≠ "entrada") (h2 : m.tipo ≠ "saida") (h3 : m.tipo ≠ "ajuste") :
    m.salvar_e_atualizar_estoque p now =
      Except.ok (p,
        [CommitEvent.produtoSaved p,
          CommitEvent.movimentacaoSaved { m with data_movimentacao := now }]) := by
  simp [Movimentacao.salvar_e_atualizar_estoque, h1, h2, h3, Except.map]

/-- C2: for every product and withdrawal quantity q ≤ current quantity,
applying a `saida` movement through `salvar_e_atualizar_estoque` succeeds,
decreases the current quantity by exactly q, and appends to the movement
table a record whose kind is `saida` and whose quantity is q. -/
theorem saida_suficiente_decrementa (db : DB) (m : Movimentacao) (p : Produto)
    (now : Nat) (htipo : m.tipo = "saida")
    (hq : m.quantidade ≤ p.quantidade_atual) :
    (runMovimentacao db m p now).fst = Except.ok () ∧
    (passoProduto p m now).quantidade_atual
      = p.quantidade_atual - m.quantidade ∧
    (runMovimentacao db m p now).snd.movimentacoes
      = db.movimentacoes ++ [{ m with data_movimentacao := now }] ∧
    ({ m with data_movimentacao := now } : Movimentacao).tipo = "saida" ∧
    ({ m with data_movimentacao := now } : Movimentacao).quantidade
      = m.quantidade := by
  have h := salvar_saida_ok_eq m p now htipo hq
  refine ⟨?_, ?_, ?_, htipo, rfl⟩
  · simp [runMovimentacao, h]
  · simp [passoProduto, h]
  · simp [runMovimentacao, h, DB.applyEvents, DB.applyEvent]

/-- Witness for C2 at the spec's worked example: product with quantity 45,
withdrawal of 45. -/
theorem saida_suficiente_decrementa_witness :
    (movSaida 45).tipo = "saida" ∧
    (movSaida 45).quantidade ≤ produtoEx.quantidade_atual ∧
    ((runMovimentacao dbEx (movSaida 45) produtoEx 7).fst = Except.ok () ∧
     (passoProduto produtoEx (movSaida 45) 7).quantidade_atual
       = produtoEx.quantidade_atual - (movSaida 45).quantidade ∧
     (runMovimentacao dbEx (movSaida 45) produtoEx 7).snd.movimentacoes
       = dbEx.movimentacoes ++ [{ movSaida 45 with data_movimentacao := 7 }] ∧
     ({ movSaida 45 with data_movimentacao := 7 } : Movimentacao).tipo
       = "saida" ∧
     ({ movSaida 45 with data_movimentacao := 7 } : Movimentacao).quantidade
       = (movSaida 45).quantidade) :=
  ⟨rfl, by decide,
    saida_suficiente_decrementa dbEx (movSaida 45) produtoEx 7 rfl (by decide)⟩

/-- C3: for every product and receipt quantity q > 0, applying an `entrada`
movement through `salvar_e_atualizar_estoque` succeeds, increases the current
quantity by exactly q, and appends to the movement table a record whose kind
is `entrada` and whose quantity is q. -/
theorem entrada_incrementa (db : DB) (m : Movimentacao) (p : Produto)
    (now : Nat) (htipo : m.tipo = "entrada") (hq : 0 < m.quantidade) :
    (runMovimentacao db m p now).fst = Except.ok () ∧
    (passoProduto p m now).quantidade_atual
      = p.quantidade_atual + m.quantidade ∧
    (runMovimentacao db m p now).snd.movimentacoes
      = db.movimentacoes ++ [{ m with data_movimentacao := now }] ∧
    ({ m with data_movimentacao := now } : Movimentacao).tipo = "entrada" ∧
    ({ m with data_movimentacao := now } : Movimentacao).quantidade
      = m.quantidade := by
  have h := salvar_entrada_eq m p now htipo
  refine ⟨?_, ?_, ?_, htipo, rfl⟩
  · simp [runMovimentacao, h]
  · simp [passoProduto, h]
  · simp [runMovimentacao, h, DB.applyEvents, DB.applyEvent]

/-- Witness for C3: receipt of 30 units into the example product. -/
theorem entrada_incrementa_witness :
    (movEntrada 30).tipo = "entrada" ∧
    (0 : Int) < (movEntrada 30).quantidade ∧
    ((runMovimentacao dbEx (movEntrada 30) produtoEx 7).fst = Except.ok () ∧
     (passoProduto produtoEx (movEntrada 30) 7).quantidade_atual
       = produtoEx.quantidade_atual + (movEntrada 30).quantidade ∧
     (runMovimentacao dbEx (movEntrada 30) produtoEx 7).snd.movimentacoes
       = dbEx.movimentacoes ++ [{ movEntrada 30 with data_movimentacao := 7 }] ∧
     ({ movEntrada 30 with data_movimentacao := 7 } : Movimentacao).tipo
       = "entrada" ∧
     ({ movEntrada 30 with data_movimentacao := 7 } : Movimentacao).quantidade
       = (movEntrada 30).quantidade) :=
  ⟨rfl, by decide,
    entrada_incrementa dbEx (movEntrada 30) produtoEx 7 rfl (by decide)⟩

/-- C4: for every product and every target quantity q (including 0), applying
an `ajuste` movement through `salvar_e_atualizar_estoque` succeeds with no
sufficiency or bound check, sets the current quantity to exactly q regardless
of its prior value, and appends the movement record. -/
theorem ajuste_define_quantidade (db : DB) (m : Movimentacao) (p : Produto)
    (now : Nat) (htipo : m.tipo = "ajuste") :
    (runMovimentacao db m p now).fst = Except.ok () ∧
    (passoProduto p m now).quantidade_atual = m.quantidade ∧
    (runMovimentacao db m p now).snd.movimentacoes
      = db.movimentacoes ++ [{ m with data_movimentacao := now }] := by
  have h := salvar_ajuste_eq m p now htipo
  refine ⟨?_, ?_, ?_⟩
  · simp [runMovimentacao, h]
  · simp [passoProduto, h]
  · simp [runMovimentacao, h, DB.applyEvents, DB.applyEvent]

/-- Witness for C4 at the boundary value q = 0: the adjustment zeroes a
product that previously held 45 units. -/
theorem ajuste_define_quantidade_witness :
    (movAjuste 0).tipo = "ajuste" ∧
    ((runMovimentacao dbEx (movAjuste 0) produtoEx 7).fst = Except.ok () ∧
     (passoProduto produtoEx (movAjuste 0) 7).quantidade_atual
       = (movAjuste 0).quantidade ∧
     (runMovimentacao dbEx (movAjuste 0) produtoEx 7).snd.movimentacoes
       = dbEx.movimentacoes ++ [{ movAjuste 0 with data_movimentacao := 7 }]) :=
  ⟨rfl, ajuste_define_quantidade dbEx (movAjuste 0) produtoEx 7 rfl⟩

/-- C10: a movement whose kind is none of `entrada`, `saida`, `ajuste` raises
no error, leaves the product's current quantity unchanged, and still persists
both the unchanged product and the movement record. -/
theorem tipo_desconhecido_sem_efeito (db : DB) (m : Movimentacao) (p : Produto)
    (now : Nat) (h1 : m.tipo ≠ "entrada") (h2 : m.tipo ≠ "saida")
    (h3 : m.tipo ≠ "ajuste") :
    (runMovimentacao db m p now).fst = Except.ok () ∧
    passoProduto p m now = p ∧
    (runMovimentacao db m p now).snd.movimentacoes
      = db.movimentacoes ++ [{ m with data_movimentacao := now }] ∧
    (runMovimentacao db m p now).snd.produtos
      = db.produtos.map (fun q => if q.pk = p.pk then p else q) := by
  have h := salvar_outro_eq m p now h1 h2 h3
  refine ⟨?_, ?_, ?_, ?_⟩
  · simp [runMovimentacao, h]
  · simp [passoProduto, h]
  · simp [runMovimentacao, h, DB.applyEvents, DB.applyEvent]
  · simp [runMovimentacao, h, DB.applyEvents, DB.applyEvent]

/-- Witness for C10: a movement of the unrecognized kind `transferencia` is
stored without touching the product's quantity. -/
theorem tipo_desconhecido_sem_efeito_witness :
    ({ movSaida 5 with tipo := "transferencia" } : Movimentacao).tipo
      ≠ "entrada" ∧
    ({ movSaida 5 with tipo := "transferencia" } : Movimentacao).tipo
      ≠ "saida" ∧
    ({ movSaida 5 with tipo := "transferencia" } : Movimentacao).tipo
      ≠ "ajuste" ∧
    ((runMovimentacao dbEx { movSaida 5 with tipo := "transferencia" }
        produtoEx 7).fst = Except.ok () ∧
     passoProduto produtoEx { movSaida 5 with tipo := "transferencia" } 7
       = produtoEx ∧
     (runMovimentacao dbEx { movSaida 5 with tipo := "transferencia" }
        produtoEx 7).snd.movimentacoes
       = dbEx.movimentacoes ++
           [{ movSaida 5 with tipo := "transferencia", data_movimentacao := 7 }] ∧
     (runMovimentacao dbEx { movSaida 5 with tipo := "transferencia" }
        produtoEx 7).snd.produtos
       = dbEx.produtos.map
           (fun q => if q.pk = produtoEx.pk then produtoEx else q)) := by
  refine ⟨by decide, by decide, by decide, ?_⟩
  have h := tipo_desconhecido_sem_efeito dbEx
    { movSaida 5 with tipo := "transferencia" } produtoEx 7
    (by decide) (by decide) (by decide)
  exact h

/-- C1 (amended): `salvar_e_atualizar_estoque` fails exactly when the
movement kind is `saida` and the requested quantity exceeds the current
quantity; every failure is the raise of Python's builtin
`ValueError("Quantidade insuficiente em estoque")` — in particular never the
dedicated `InsufficientStockError` type the spec posits — and on failure the
store is unchanged: the product row keeps its quantity and no movement record
is inserted. -/
theorem erro_estoque_insuficiente_iff (db : DB) (m : Movimentacao)
    (p : Produto) (now : Nat) :
    ((runMovimentacao db m p now).fst
        = Except.error (PyExc.valueError "Quantidade insuficiente em estoque")
      ↔ m.tipo = "saida" ∧ p.quantidade_atual < m.quantidade) ∧
    (∀ e, (runMovimentacao db m p now).fst = Except.error e →
      e = PyExc.valueError "Quantidade insuficiente em estoque" ∧
      e ≠ PyExc.insufficientStockError ∧
      (runMovimentacao db m p now).snd = db) := by
  by_cases h1 : m.tipo = "entrada"
  · have h := salvar_entrada_eq m p now h1
    constructor
    · simp [runMovimentacao, h, h1]
    · intro e he
      simp [runMovimentacao, h] at he
  · by_cases h2 : m.tipo = "saida"
    · by_cases hq : p.quantidade_atual < m.quantidade
      · have h := salvar_saida_erro_eq m p now h2 hq
        constructor
        · simp [runMovimentacao, h, h2, hq]
        · intro e he
          simp [runMovimentacao, h] at he
          cases he
          exact ⟨rfl, by simp, by simp [runMovimentacao, h]⟩
      · have h := salvar_saida_ok_eq m p now h2 (not_lt.mp hq)
        constructor
        · simp [runMovimentacao, h, hq]
        · intro e he
          simp [runMovimentacao, h] at he
    · by_cases h3 : m.tipo = "ajuste"
      · have h := salvar_ajuste_eq m p now h3
        constructor
        · simp [runMovimentacao, h, h2]
        · intro e he
          simp [runMovimentacao, h] at he
      · have h := salvar_outro_eq m p now h1 h2 h3
        constructor
        · simp [runMovimentacao, h, h2]
        · intro e he
          simp [runMovimentacao, h] at he

/-- Witness for C1 at the spec's worked example (stock 45, withdrawal 50):
the left-to-right and right-to-left directions of the characterization are
both exercised on a concrete failing input. -/
theorem erro_estoque_insuficiente_iff_witness :
    ((runMovimentacao dbEx (movSaida 50) produtoEx 7).fst
        = Except.error (PyExc.valueError "Quantidade insuficiente em estoque")
      ↔ (movSaida 50).tipo = "saida" ∧
        produtoEx.quantidade_atual < (movSaida 50).quantidade) ∧
    (∀ e, (runMovimentacao dbEx (movSaida 50) produtoEx 7).fst
        = Except.error e →
      e = PyExc.valueError "Quantidade insuficiente em estoque" ∧
      e ≠ PyExc.insufficientStockError ∧
      (runMovimentacao dbEx (movSaida 50) produtoEx 7).snd = dbEx) :=
  erro_estoque_insuficiente_iff dbEx (movSaida 50) produtoEx 7

/-- C1 counterexample to the claim as stated: at stock 45 and withdrawal 50
the raised failure is Python's builtin generic `ValueError` (message
"Quantidade insuficiente em estoque"), not a dedicated typed domain error:
the source defines no `InsufficientStockError` class and the raise site
(`models.py` line 137) uses `ValueError`. The store is left unchanged, so
the frame part of the claim holds; only the "typed rather than generic
exception" part fails. -/
theorem erro_estoque_insuficiente_cex :
    (runMovimentacao dbEx (movSaida 50) produtoEx 7).fst
      = Except.error (PyExc.valueError "Quantidade insuficiente em estoque") ∧
    Except.error (α := Unit)
        (PyExc.valueError "Quantidade insuficiente em estoque")
      ≠ Except.error PyExc.insufficientStockError ∧
    (runMovimentacao dbEx (movSaida 50) produtoEx 7).snd = dbEx := by
  refine ⟨by rfl, by simp, by rfl⟩

/-- Helper: a single application of the movement method preserves
non-negativity of the in-memory current quantity whenever the movement's own
quantity is non-negative, on every branch including the raising one. -/
theorem passoProduto_nonneg (p : Produto) (m : Movimentacao) (now : Nat)
    (hp : 0 ≤ p.quantidade_atual) (hm : 0 ≤ m.quantidade) :
    0 ≤ (passoProduto p m now).quantidade_atual := by
  by_cases h1 : m.tipo = "entrada"
  · simp [passoProduto, salvar_entrada_eq m p now h1]
    exact add_nonneg hp hm
  · by_cases h2 : m.tipo = "saida"
    · by_cases hq : p.quantidade_atual < m.quantidade
      · simp [passoProduto, salvar_saida_erro_eq m p now h2 hq, hp]
      · simp [passoProduto, salvar_saida_ok_eq m p now h2 (not_lt.mp hq)]
        exact not_lt.mp hq
    · by_cases h3 : m.tipo = "ajuste"
      · simp [passoProduto, salvar_ajuste_eq m p now h3, hm]
      · simp [passoProduto, salvar_outro_eq m p now h1 h2 h3, hp]

/-- C5: starting from a non-negative current quantity, no sequence of
movement applications with non-negative quantities — receipts, withdrawals
(successful or raising), adjustments, or unrecognized kinds — can drive the
product's current quantity negative. -/
theorem quantidade_nunca_negativa (p : Produto) (ms : List (Movimentacao × Nat))
    (hp : 0 ≤ p.quantidade_atual)
    (hms : ∀ mn ∈ ms, 0 ≤ mn.fst.quantidade) :
    0 ≤ (aplicarSequencia p ms).quantidade_atual := by
  induction ms generalizing p with
  | nil => exact hp
  | cons mn rest ih =>
      have hstep := passoProduto_nonneg p mn.fst mn.snd hp
        (hms mn (List.mem_cons_self mn rest))
      have hrest : ∀ x ∈ rest, 0 ≤ x.fst.quantidade :=
        fun x hx => hms x (List.mem_cons_of_mem mn hx)
      simpa [aplicarSequencia] using
        ih (passoProduto p mn.fst mn.snd) hstep hrest

/-- Witness for C5: a concrete sequence receipt 30, failing withdrawal 100,
withdrawal 70, adjustment 0 keeps the quantity non-negative. -/
theorem quantidade_nunca_negativa_witness :
    (0 : Int) ≤ produtoEx.quantidade_atual ∧
    (∀ mn ∈ [(movEntrada 30, 1), (movSaida 100, 2), (movSaida 70, 3),
        (movAjuste 0, 4)], 0 ≤ mn.fst.quantidade) ∧
    0 ≤ (aplicarSequencia produtoEx [(movEntrada 30, 1), (movSaida 100, 2),
        (movSaida 70, 3), (movAjuste 0, 4)]).quantidade_atual :=
  ⟨by decide, by decide,
    quantidade_nunca_negativa produtoEx
      [(movEntrada 30, 1), (movSaida 100, 2), (movSaida 70, 3), (movAjuste 0, 4)]
      (by decide) (by decide)⟩

/-- C7: the low-stock predicate holds exactly when the current quantity is at
most the minimum quantity; it holds at the inclusive boundary (a product at
exactly its minimum), and it holds after a withdrawal that brings the spec's
example product (quantity 45, minimum 10) down to 0. -/
theorem estoque_baixo_caracterizacao (p : Produto) :
    (p.esta_com_estoque_baixo = true
      ↔ p.quantidade_atual ≤ p.quantidade_minima) ∧
    Produto.esta_com_estoque_baixo
      { produtoEx with quantidade_atual := 10 } = true ∧
    produtoEx.esta_com_estoque_baixo = false ∧
    (passoProduto produtoEx (movSaida 45) 7).quantidade_atual = 0 ∧
    Produto.esta_com_estoque_baixo (passoProduto produtoEx (movSaida 45) 7)
      = true := by
  refine ⟨?_, by decide, by decide, by rfl, by rfl⟩
  simp [Produto.esta_com_estoque_baixo]

/-- Readonly fields of `MovimentacaoAdmin` (`admin.py` line 66): only the
creation timestamp is protected from editing in the admin change form. -/
def MovimentacaoAdmin_readonly_fields : List String :=
  ["data_movimentacao"]

/-- The edit applied by the admin change view to one stored movement.
Modelled from `admin.py` lines 61-68 together with Django's documented
default behavior: `@admin.register(Movimentacao)` with a plain `ModelAdmin`
exposes the default change view, in which every model field is editable
except those listed in `readonly_fields`; saving writes the submitted value
of each editable field and keeps the stored value of each readonly field. -/
def movimentacaoAdminChange (old novo : Movimentacao) : Movimentacao :=
  { produto_pk :=
      if "produto" ∈ MovimentacaoAdmin_readonly_fields then old.produto_pk
      else novo.produto_pk
    tipo :=
      if "tipo" ∈ MovimentacaoAdmin_readonly_fields then old.tipo
      else novo.tipo
    quantidade :=
      if "quantidade" ∈ MovimentacaoAdmin_readonly_fields then old.quantidade
      else novo.quantidade
    motivo :=
      if "motivo" ∈ MovimentacaoAdmin_readonly_fields then old.motivo
      else novo.motivo
    funcionario :=
      if "funcionario" ∈ MovimentacaoAdmin_readonly_fields then old.funcionario
      else novo.funcionario
    data_movimentacao :=
      if "data_movimentacao" ∈ MovimentacaoAdmin_readonly_fields then
        old.data_movimentacao
      else novo.data_movimentacao
    observacoes :=
      if "observacoes" ∈ MovimentacaoAdmin_readonly_fields then old.observacoes
      else novo.observacoes }

/-- Saving the admin change form for the stored movement at position `i`:
an in-place UPDATE of that row; out-of-range positions change nothing. -/
def DB.adminChangeMovimentacao (db : DB) (i : Nat) (novo : Movimentacao) :
    DB :=
  match db.movimentacoes.get? i with
  | some old =>
      { db with movimentacoes :=
          db.movimentacoes.set i (movimentacaoAdminChange old novo) }
  | none => db

/-- Store fixture with one persisted movement: the 45-unit withdrawal
recorded at timestamp 7. -/
def dbM : DB :=
  { produtos := [produtoEx],
    movimentacoes := [{ movSaida 45 with data_movimentacao := 7 }] }

/-- C9 counterexample to the claim as stated: an update path for movements
does exist. `MovimentacaoAdmin` (`admin.py` lines 61-68) registers
`Movimentacao` with a default `ModelAdmin` whose change view edits an
existing row in place, protecting only `data_movimentacao`: the stored
45-unit withdrawal becomes a 5-unit one — same position, same creation
timestamp, different quantity — so the record was modified after its
creation. -/
theorem movimentacoes_imutaveis_cex :
    (dbM.adminChangeMovimentacao 0 (movSaida 5)).movimentacoes
      ≠ dbM.movimentacoes ∧
    (dbM.adminChangeMovimentacao 0 (movSaida 5)).movimentacoes.length
      = dbM.movimentacoes.length ∧
    (dbM.movimentacoes.get? 0).map Movimentacao.quantidade = some 45 ∧
    ((dbM.adminChangeMovimentacao 0 (movSaida 5)).movimentacoes.get? 0).map
        Movimentacao.quantidade = some 5 ∧
    ((dbM.adminChangeMovimentacao 0 (movSaida 5)).movimentacoes.get? 0).map
        Movimentacao.data_movimentacao = some 7 := by
  refine ⟨by decide, by decide, by decide, by decide, by decide⟩

/-- C9 (amended): the movement-application operation itself modifies no
stored movement — the movement table is preserved as a prefix and at most one
record is appended, stamped with its creation timestamp at insert — but an
update path for movements does exist: the admin change view modelled from
`MovimentacaoAdmin` rewrites the targeted row in place, leaving every other
row untouched; of the edited row only the creation timestamp
`data_movimentacao`, the sole readonly field, keeps its stored value, while
the kind and quantity take the submitted values. -/
theorem salvar_nao_modifica_movimentacoes (db : DB) (m : Movimentacao)
    (p : Produto) (now : Nat) (i : Nat) (novo : Movimentacao) :
    (runMovimentacao db m p now).snd.movimentacoes.take
        db.movimentacoes.length = db.movimentacoes ∧
    ((runMovimentacao db m p now).snd.movimentacoes = db.movimentacoes ∨
      (runMovimentacao db m p now).snd.movimentacoes
        = db.movimentacoes ++ [{ m with data_movimentacao := now }]) ∧
    (∀ old, (movimentacaoAdminChange old novo).data_movimentacao
        = old.data_movimentacao ∧
      (movimentacaoAdminChange old novo).tipo = novo.tipo ∧
      (movimentacaoAdminChange old novo).quantidade = novo.quantidade) ∧
    (db.adminChangeMovimentacao i novo).movimentacoes.length
      = db.movimentacoes.length ∧
    (∀ old, db.movimentacoes.get? i = some old →
      (db.adminChangeMovimentacao i novo).movimentacoes.get? i
        = some (movimentacaoAdminChange old novo)) ∧
    (∀ j, j ≠ i →
      (db.adminChangeMovimentacao i novo).movimentacoes.get? j
        = db.movimentacoes.get? j) := by
  have hcampos : ∀ old : Movimentacao,
      (movimentacaoAdminChange old novo).data_movimentacao
        = old.data_movimentacao ∧
      (movimentacaoAdminChange old novo).tipo = novo.tipo ∧
      (movimentacaoAdminChange old novo).quantidade = novo.quantidade := by
    intro old
    refine ⟨?_, ?_, ?_⟩ <;>
      simp [movimentacaoAdminChange, MovimentacaoAdmin_readonly_fields]
  have hlen : (db.adminChangeMovimentacao i novo).movimentacoes.length
      = db.movimentacoes.length := by
    unfold DB.adminChangeMovimentacao
    cases h : db.movimentacoes.get? i with
    | none => rfl
    | some old => simp
  have hset : ∀ old, db.movimentacoes.get? i = some old →
      (db.adminChangeMovimentacao i novo).movimentacoes.get? i
        = some (movimentacaoAdminChange old novo) := by
    intro old hold
    have hlt : i < db.movimentacoes.length := by
      rw [List.get?_eq_getElem?] at hold
      exact (List.getElem?_eq_some.mp hold).1
    unfold DB.adminChangeMovimentacao
    rw [hold]
    simp only [List.get?_eq_getElem?]
    exact List.getElem?_set_self hlt
  have houtro : ∀ j, j ≠ i →
      (db.adminChangeMovimentacao i novo).movimentacoes.get? j
        = db.movimentacoes.get? j := by
    intro j hj
    unfold DB.adminChangeMovimentacao
    cases h : db.movimentacoes.get? i with
    | none => rfl
    | some old =>
        simp only [List.get?_eq_getElem?]
        exact List.getElem?_set_ne (fun he => hj he.symm)
  have hcase : (runMovimentacao db m p now).snd.movimentacoes
        = db.movimentacoes ∨
      (runMovimentacao db m p now).snd.movimentacoes
        = db.movimentacoes ++ [{ m with data_movimentacao := now }] := by
    by_cases h1 : m.tipo = "entrada"
    · exact Or.inr (by
        simp [runMovimentacao, salvar_entrada_eq m p now h1,
          DB.applyEvents, DB.applyEvent])
    · by_cases h2 : m.tipo = "saida"
      · by_cases hq : p.quantidade_atual < m.quantidade
        · exact Or.inl (by
            simp [runMovimentacao, salvar_saida_erro_eq m p now h2 hq])
        · exact Or.inr (by
            simp [runMovimentacao,
              salvar_saida_ok_eq m p now h2 (not_lt.mp hq),
              DB.applyEvents, DB.applyEvent])
      · by_cases h3 : m.tipo = "ajuste"
        · exact Or.inr (by
            simp [runMovimentacao, salvar_ajuste_eq m p now h3,
              DB.applyEvents, DB.applyEvent])
        · exact Or.inr (by
            simp [runMovimentacao, salvar_outro_eq m p now h1 h2 h3,
              DB.applyEvents, DB.applyEvent])
  refine ⟨?_, hcase, hcampos, hlen, hset, houtro⟩
  rcases hcase with h | h
  · simp [h]
  · simp [h, List.take_left]

/-- Witness for the amended C9: the appended-prefix part on the example
store, and the admin edit of its single stored movement — row 0 rewritten to
the edited record, row 1 (absent) untouched. -/
theorem salvar_nao_modifica_movimentacoes_witness :
    dbM.movimentacoes.get? 0
      = some { movSaida 45 with data_movimentacao := 7 } ∧
    (1 : Nat) ≠ 0 ∧
    (runMovimentacao dbM (movEntrada 5) produtoEx 9).snd.movimentacoes.take
        dbM.movimentacoes.length = dbM.movimentacoes ∧
    (dbM.adminChangeMovimentacao 0 (movSaida 5)).movimentacoes.get? 0
      = some (movimentacaoAdminChange
          { movSaida 45 with data_movimentacao := 7 } (movSaida 5)) ∧
    (dbM.adminChangeMovimentacao 0 (movSaida 5)).movimentacoes.get? 1
      = dbM.movimentacoes.get? 1 := by
  refine ⟨by decide, by decide, ?_, ?_, ?_⟩
  · exact (salvar_nao_modifica_movimentacoes dbM (movEntrada 5) produtoEx 9 0
      (movSaida 5)).1
  · exact (salvar_nao_modifica_movimentacoes dbM (movEntrada 5) produtoEx 9 0
      (movSaida 5)).2.2.2.2.1 { movSaida 45 with data_movimentacao := 7 }
      (by decide)
  · exact (salvar_nao_modifica_movimentacoes dbM (movEntrada 5) produtoEx 9 0
      (movSaida 5)).2.2.2.2.2 1 (by decide)

/-- Inversion of a successful movement application: the updated product keeps
the primary key, and the issued persistence calls are exactly the product
save followed by the movement insert, in that order. -/
theorem salvar_ok_inv (m : Movimentacao) (p p2 : Produto) (now : Nat)
    (evs : List CommitEvent)
    (hok : m.salvar_e_atualizar_estoque p now = Except.ok (p2, evs)) :
    p2.pk = p.pk ∧
    evs = [CommitEvent.produtoSaved p2,
      CommitEvent.movimentacaoSaved { m with data_movimentacao := now }] := by
  by_cases h1 : m.tipo = "entrada"
  · rw [salvar_entrada_eq m p now h1] at hok
    simp only [Except.ok.injEq, Prod.mk.injEq] at hok
    obtain ⟨hp2, hevs⟩ := hok
    subst hp2
    subst hevs
    exact ⟨rfl, rfl⟩
  · by_cases h2 : m.tipo = "saida"
    · by_cases hq : p.quantidade_atual < m.quantidade
      · rw [salvar_saida_erro_eq m p now h2 hq] at hok
        simp at hok
      · rw [salvar_saida_ok_eq m p now h2 (not_lt.mp hq)] at hok
        simp only [Except.ok.injEq, Prod.mk.injEq] at hok
        obtain ⟨hp2, hevs⟩ := hok
        subst hp2
        subst hevs
        exact ⟨rfl, rfl⟩
    · by_cases h3 : m.tipo = "ajuste"
      · rw [salvar_ajuste_eq m p now h3] at hok
        simp only [Except.ok.injEq, Prod.mk.injEq] at hok
        obtain ⟨hp2, hevs⟩ := hok
        subst hp2
        subst hevs
        exact ⟨rfl, rfl⟩
      · rw [salvar_outro_eq m p now h1 h2 h3] at hok
        simp only [Except.ok.injEq, Prod.mk.injEq] at hok
        obtain ⟨hp2, hevs⟩ := hok
        subst hp2
        subst hevs
        exact ⟨rfl, rfl⟩

/-- Helper: an UPDATE keyed on the product's primary key makes the
subsequent fetch of that key return the saved row. -/
theorem find_map_save (l : List Produto) (p p2 : Produto)
    (h : l.find? (fun q => q.pk = p.pk) = some p) (hpk : p2.pk = p.pk) :
    (l.map (fun q => if q.pk = p2.pk then p2 else q)).find?
        (fun q => q.pk = p.pk) = some p2 := by
  induction l with
  | nil => simp at h
  | cons a l ih =>
      by_cases ha : a.pk = p.pk
      · have hhead : (if a.pk = p2.pk then p2 else a) = p2 := by
          rw [hpk]
          simp [ha]
        simp only [List.map_cons, hhead]
        exact List.find?_cons_of_pos _ (by simp [hpk])
      · have hhead : (if a.pk = p2.pk then p2 else a) = a := by
          rw [hpk]
          simp [ha]
        have htail : l.find? (fun q => q.pk = p.pk) = some p := by
          rwa [List.find?_cons_of_neg _ (by simp [ha])] at h
        simp only [List.map_cons, hhead]
        rw [List.find?_cons_of_neg _ (by simp [ha])]
        exact ih htail

/-- C6: in every successful movement application, the product row is
committed before the movement record — for every prefix of the issued
persistence calls, if the partially-committed store already contains the new
movement record then the fetch of the product's key in that store already
returns the updated (post-movement) product, never the stale one. -/
theorem produto_atualizado_antes_da_movimentacao (db : DB) (m : Movimentacao)
    (p p2 : Produto) (evs : List CommitEvent) (now k : Nat)
    (hok : m.salvar_e_atualizar_estoque p now = Except.ok (p2, evs))
    (hget : getProduto db p.pk = some p)
    (hfresh : ({ m with data_movimentacao := now } : Movimentacao)
      ∉ db.movimentacoes)
    (hmem : ({ m with data_movimentacao := now } : Movimentacao)
      ∈ (db.applyEvents (evs.take k)).movimentacoes) :
    getProduto (db.applyEvents (evs.take k)) p.pk = some p2 := by
  obtain ⟨hpk, hevs⟩ := salvar_ok_inv m p p2 now evs hok
  subst hevs
  match k with
  | 0 =>
      simp [DB.applyEvents] at hmem
      exact absurd hmem hfresh
  | 1 =>
      simp [DB.applyEvents, DB.applyEvent, List.take] at hmem
      exact absurd hmem hfresh
  | (k + 2) =>
      simp only [List.take_succ_cons, List.take_nil, DB.applyEvents,
        List.foldl_cons, List.foldl_nil] at hmem ⊢
      simp only [DB.applyEvent]
      exact find_map_save db.produtos p p2 hget hpk

/-- Witness for C6: after the first commit event of a successful withdrawal
(the product save) and the second (the movement insert), the fetched product
already carries the reduced quantity. -/
theorem produto_atualizado_antes_da_movimentacao_witness :
    (Movimentacao.salvar_e_atualizar_estoque (movSaida 45) produtoEx 7
        = Except.ok ({ produtoEx with quantidade_atual := 0 },
          [CommitEvent.produtoSaved { produtoEx with quantidade_atual := 0 },
            CommitEvent.movimentacaoSaved
              { movSaida 45 with data_movimentacao := 7 }])) ∧
    getProduto dbEx produtoEx.pk = some produtoEx ∧
    ({ movSaida 45 with data_movimentacao := 7 } : Movimentacao)
      ∉ dbEx.movimentacoes ∧
    ({ movSaida 45 with data_movimentacao := 7 } : Movimentacao)
      ∈ (dbEx.applyEvents
          (([CommitEvent.produtoSaved { produtoEx with quantidade_atual := 0 },
            CommitEvent.movimentacaoSaved
              { movSaida 45 with data_movimentacao := 7 }]).take 2)).movimentacoes ∧
    getProduto (dbEx.applyEvents
        (([CommitEvent.produtoSaved { produtoEx with quantidade_atual := 0 },
          CommitEvent.movimentacaoSaved
            { movSaida 45 with data_movimentacao := 7 }]).take 2)) produtoEx.pk
      = some { produtoEx with quantidade_atual := 0 } :=
  ⟨by rfl, by rfl, by decide, by decide,
    produto_atualizado_antes_da_movimentacao dbEx (movSaida 45) produtoEx
      { produtoEx with quantidade_atual := 0 }
      [CommitEvent.produtoSaved { produtoEx with quantidade_atual := 0 },
        CommitEvent.movimentacaoSaved
          { movSaida 45 with data_movimentacao := 7 }] 7 2
      (by rfl) (by rfl) (by decide) (by decide)⟩

/-- Movement object built by the `registrar_saida` view
(`movimentacao_views.py` lines 200-207) for a withdrawal of `q` units of the
product with key `pk`. -/
def movSaidaView (pk : Nat) (q : Int) : Movimentacao :=
  { produto_pk := pk, tipo := "saida", quantidade := q, motivo := "uso",
    funcionario := none, data_movimentacao := 0, observacoes := "" }

/-- Local state of one in-flight `registrar_saida` request: the requested
quantity, the product object fetched by `Produto.objects.get` (which happens
before the `transaction.atomic` block), and whether the request has already
run its transaction. -/
structure ReqState where
  quantidade : Int
  snapshot : Option Produto
  concluida : Bool
  deriving DecidableEq, Repr

/-- The fetch step of `registrar_saida` (`movimentacao_views.py` line 188):
read the product row into the request's in-memory object. -/
def doRead (db : DB) (pk : Nat) (r : ReqState) : ReqState :=
  { r with snapshot := getProduto db pk }

/-- The transactional step of `registrar_saida` (`movimentacao_views.py`
lines 190-208): the sufficiency pre-check `produto.quantidade_atual <
quantidade` runs against the previously fetched in-memory object; on failure
only an error message is produced and nothing is persisted; otherwise,
inside `transaction.atomic`, the model method runs against that same
in-memory object and its `produto.save()` writes the object's fields over
the current row. A request that has not fetched or has already concluded
does nothing. -/
def doTxn (db : DB) (now : Nat) (r : ReqState) : DB × ReqState :=
  match r.snapshot, r.concluida with
  | some prod, false =>
      if prod.quantidade_atual < r.quantidade then
        (db, { r with concluida := true })
      else
        ((runMovimentacao db (movSaidaView prod.pk r.quantidade) prod now).snd,
          { r with concluida := true })
  | _, _ => (db, r)

/-- Interleaving actions of two concurrent `registrar_saida` requests A and
B: each request performs its fetch and then its transaction, and the two
requests' steps interleave arbitrarily. -/
inductive ConcAction where
  | readA
  | txnA
  | readB
  | txnB
  deriving DecidableEq, Repr

/-- Combined state of the store and the two in-flight requests. -/
structure ConcState where
  db : DB
  reqA : ReqState
  reqB : ReqState
  deriving DecidableEq, Repr

/-- One interleaving step of the two concurrent requests. -/
def concStep (pk now : Nat) (s : ConcState) : ConcAction → ConcState
  | ConcAction.readA => { s with reqA := doRead s.db pk s.reqA }
  | ConcAction.txnA =>
      let dr := doTxn s.db now s.reqA
      { s with db := dr.fst, reqA := dr.snd }
  | ConcAction.readB => { s with reqB := doRead s.db pk s.reqB }
  | ConcAction.txnB =>
      let dr := doTxn s.db now s.reqB
      { s with db := dr.fst, reqB := dr.snd }

/-- Run a whole interleaving schedule of the two requests. -/
def concRun (pk now : Nat) (s : ConcState) (acts : List ConcAction) :
    ConcState :=
  acts.foldl (concStep pk now) s

/-- Total quantity recorded as withdrawn in the movement table. -/
def totalSaidas (db : DB) : Int :=
  (db.movimentacoes.filter (fun m => m.tipo == "saida")).foldl
    (fun acc m => acc + m.quantidade) 0

/-- C8 counterexample to the claim as stated: two concurrent 45-unit
withdrawal requests against the example product holding 45 units, under the
schedule fetch-A, fetch-B, transaction-A, transaction-B. Both fetches happen
before either transaction, both sufficiency checks pass against the stale
in-memory snapshot (the fetch is outside `transaction.atomic` and there is no
row lock or re-read inside it), and both movements commit: 90 units are
recorded as withdrawn from a stock of 45, refuting "at most as many units as
are in stock are withdrawn in total". The final stored quantity is 0, not
negative. -/
theorem saidas_concorrentes_cex :
    totalSaidas (concRun 1 7
        { db := dbEx,
          reqA := { quantidade := 45, snapshot := none, concluida := false },
          reqB := { quantidade := 45, snapshot := none, concluida := false } }
        [ConcAction.readA, ConcAction.readB, ConcAction.txnA,
          ConcAction.txnB]).db = 90 ∧
    ¬(totalSaidas (concRun 1 7
        { db := dbEx,
          reqA := { quantidade := 45, snapshot := none, concluida := false },
          reqB := { quantidade := 45, snapshot := none, concluida := false } }
        [ConcAction.readA, ConcAction.readB, ConcAction.txnA,
          ConcAction.txnB]).db ≤ produtoEx.quantidade_atual) ∧
    (concRun 1 7
        { db := dbEx,
          reqA := { quantidade := 45, snapshot := none, concluida := false },
          reqB := { quantidade := 45, snapshot := none, concluida := false } }
        [ConcAction.readA, ConcAction.readB, ConcAction.txnA,
          ConcAction.txnB]).db.movimentacoes.length = 2 ∧
    (getProduto (concRun 1 7
        { db := dbEx,
          reqA := { quantidade := 45, snapshot := none, concluida := false },
          reqB := { quantidade := 45, snapshot := none, concluida := false } }
        [ConcAction.readA, ConcAction.readB, ConcAction.txnA,
          ConcAction.txnB]).db 1).map Produto.quantidade_atual = some 0 := by
  refine ⟨by decide, by decide, by decide, by decide⟩

/-- Helper: the transactional step of a withdrawal request keeps every
stored product row non-negative, since it writes `snapshot − q` only under
the guard `snapshot ≥ q ≥ 0`. -/
theorem doTxn_produtos_nonneg (db : DB) (now : Nat) (r : ReqState)
    (hdb : ∀ p ∈ db.produtos, 0 ≤ p.quantidade_atual)
    (hq : 0 ≤ r.quantidade) :
    ∀ p ∈ (doTxn db now r).fst.produtos, 0 ≤ p.quantidade_atual := by
  cases hs : r.snapshot with
  | none =>
      intro p hp
      exact hdb p (by simpa [doTxn, hs] using hp)
  | some prod =>
      cases hc : r.concluida with
      | true =>
          intro p hp
          exact hdb p (by simpa [doTxn, hs, hc] using hp)
      | false =>
          by_cases hlt : prod.quantidade_atual < r.quantidade
          · intro p hp
            exact hdb p (by simpa [doTxn, hs, hc, hlt] using hp)
          · have hok := salvar_saida_ok_eq (movSaidaView prod.pk r.quantidade)
              prod now rfl (by simpa [movSaidaView] using not_lt.mp hlt)
            intro p hp
            simp only [doTxn, hs, hc, hlt, if_false, runMovimentacao, hok,
              DB.applyEvents, List.foldl_cons, List.foldl_nil,
              DB.applyEvent] at hp
            obtain ⟨q0, hq0mem, hq0eq⟩ := List.mem_map.mp hp
            by_cases hpk : q0.pk = prod.pk
            · have : p = { prod with
                  quantidade_atual := prod.quantidade_atual
                    - (movSaidaView prod.pk r.quantidade).quantidade } := by
                rw [← hq0eq]
                simp [hpk, movSaidaView]
              rw [this]
              simp [movSaidaView]
              exact not_lt.mp hlt
            · have : p = q0 := by
                rw [← hq0eq]
                simp [hpk, movSaidaView]
              rw [this]
              exact hdb q0 hq0mem

/-- Helper: no step changes a request's requested quantity. -/
theorem doTxn_quantidade (db : DB) (now : Nat) (r : ReqState) :
    ((doTxn db now r).snd).quantidade = r.quantidade := by
  cases hs : r.snapshot with
  | none => simp [doTxn, hs]
  | some prod =>
      cases hc : r.concluida with
      | true => simp [doTxn, hs, hc]
      | false =>
          by_cases hlt : prod.quantidade_atual < r.quantidade <;>
            simp [doTxn, hs, hc, hlt]

/-- Helper: along every interleaving schedule, all stored product rows stay
non-negative provided both requested quantities are non-negative. -/
theorem concRun_nonneg (pk now : Nat) (acts : List ConcAction) (s : ConcState)
    (hdb : ∀ p ∈ s.db.produtos, 0 ≤ p.quantidade_atual)
    (hA : 0 ≤ s.reqA.quantidade) (hB : 0 ≤ s.reqB.quantidade) :
    ∀ p ∈ (concRun pk now s acts).db.produtos, 0 ≤ p.quantidade_atual := by
  induction acts generalizing s with
  | nil => exact hdb
  | cons a rest ih =>
      have hfold : concRun pk now s (a :: rest)
          = concRun pk now (concStep pk now s a) rest := rfl
      rw [hfold]
      cases a with
      | readA => exact ih _ hdb hA hB
      | readB => exact ih _ hdb hA hB
      | txnA =>
          refine ih _ (doTxn_produtos_nonneg s.db now s.reqA hdb hA) ?_ hB
          simpa [concStep] using (doTxn_quantidade s.db now s.reqA).symm ▸ hA
      | txnB =>
          refine ih _ (doTxn_produtos_nonneg s.db now s.reqB hdb hB) hA ?_
          simpa [concStep] using (doTxn_quantidade s.db now s.reqB).symm ▸ hB

/-- C8 (amended): under every interleaving of two concurrent withdrawal
requests with non-negative quantities, every stored product row keeps a
non-negative quantity — each transaction writes `snapshot − q` only under the
guard `snapshot ≥ q`. The stronger original claim, that at most the available
stock is withdrawn in total thanks to an isolated
check-update-insert transaction, fails: the fetch and the sufficiency check
run against an in-memory snapshot taken outside `transaction.atomic`, so two
interleaved requests can both pass the check against the same stale value. -/
theorem saidas_concorrentes_nao_negativo (db0 : DB) (qA qB : Int)
    (pk now : Nat) (acts : List ConcAction)
    (hdb : ∀ p ∈ db0.produtos, 0 ≤ p.quantidade_atual)
    (hA : 0 ≤ qA) (hB : 0 ≤ qB) :
    ∀ p ∈ (concRun pk now
        { db := db0,
          reqA := { quantidade := qA, snapshot := none, concluida := false },
          reqB := { quantidade := qB, snapshot := none, concluida := false } }
        acts).db.produtos, 0 ≤ p.quantidade_atual :=
  concRun_nonneg pk now acts _ hdb hA hB

/-- Witness for the amended C8 on the racing schedule itself: after both
45-unit withdrawals commit against stock 45, the stored quantities are still
non-negative. -/
theorem saidas_concorrentes_nao_negativo_witness :
    (∀ p ∈ dbEx.produtos, (0 : Int) ≤ p.quantidade_atual) ∧
    (0 : Int) ≤ 45 ∧
    ∀ p ∈ (concRun 1 7
        { db := dbEx,
          reqA := { quantidade := 45, snapshot := none, concluida := false },
          reqB := { quantidade := 45, snapshot := none, concluida := false } }
        [ConcAction.readA, ConcAction.readB, ConcAction.txnA,
          ConcAction.txnB]).db.produtos, 0 ≤ p.quantidade_atual :=
  ⟨by decide, by decide,
    saidas_concorrentes_nao_negativo dbEx 45 45 1 7
      [ConcAction.readA, ConcAction.readB, ConcAction.txnA, ConcAction.txnB]
      (by decide) (by decide) (by decide)⟩
